import Mathlib

/-!
Verification of the meter-tracker billing core (period resolution and
tiered cost engine) against a shallow embedding of the JavaScript source.

The embedding idealises IEEE doubles as exact rationals while keeping the
special values `NaN`, `Infinity` and `-Infinity` explicit, because the
source manipulates them (the unbounded final tariff block is the literal
`Infinity`, and `parseFloat` of an absent or malformed setting is `NaN`).
-/

unseal Rat.add Rat.mul Rat.sub Rat.inv Rat.ofScientific

namespace MeterTracker

/-- JavaScript number idealised: exact rationals plus NaN and the two
infinities. -/
inductive JsNum where
  | nan : JsNum
  | inf : JsNum
  | ninf : JsNum
  | fin (q : ℚ) : JsNum
deriving DecidableEq

namespace JsNum

/-- JavaScript addition on idealised numbers. -/
def add : JsNum → JsNum → JsNum
  | nan, _ => nan
  | _, nan => nan
  | inf, ninf => nan
  | ninf, inf => nan
  | inf, _ => inf
  | _, inf => inf
  | ninf, _ => ninf
  | _, ninf => ninf
  | fin a, fin b => fin (a + b)

/-- JavaScript negation. -/
def neg : JsNum → JsNum
  | nan => nan
  | inf => ninf
  | ninf => inf
  | fin q => fin (-q)

/-- JavaScript subtraction, `a - b = a + (-b)`. -/
def sub (a b : JsNum) : JsNum := add a (neg b)

/-- JavaScript multiplication on idealised numbers. -/
def mul : JsNum → JsNum → JsNum
  | nan, _ => nan
  | _, nan => nan
  | inf, inf => inf
  | inf, ninf => ninf
  | ninf, inf => ninf
  | ninf, ninf => inf
  | inf, fin q => if 0 < q then inf else if q < 0 then ninf else nan
  | fin q, inf => if 0 < q then inf else if q < 0 then ninf else nan
  | ninf, fin q => if 0 < q then ninf else if q < 0 then inf else nan
  | fin q, ninf => if 0 < q then ninf else if q < 0 then inf else nan
  | fin a, fin b => fin (a * b)

/-- `Math.min`: NaN-propagating minimum. -/
def jmin : JsNum → JsNum → JsNum
  | nan, _ => nan
  | _, nan => nan
  | ninf, _ => ninf
  | _, ninf => ninf
  | inf, b => b
  | a, inf => a
  | fin a, fin b => fin (min a b)

/-- JavaScript strict comparison `a < b`; false whenever NaN is involved. -/
def ltb : JsNum → JsNum → Bool
  | nan, _ => false
  | _, nan => false
  | ninf, inf => true
  | ninf, fin _ => true
  | ninf, ninf => false
  | inf, _ => false
  | fin _, inf => true
  | fin a, fin b => decide (a < b)
  | fin _, ninf => false

/-- JavaScript comparison `a <= b`; false whenever NaN is involved,
otherwise the negation of `b < a`. -/
def leb : JsNum → JsNum → Bool
  | nan, _ => false
  | _, nan => false
  | a, b => !(ltb b a)

instance : Add JsNum := ⟨add⟩
instance : Sub JsNum := ⟨sub⟩
instance : Mul JsNum := ⟨mul⟩
instance : Neg JsNum := ⟨neg⟩

@[simp] theorem add_fin_fin (a b : ℚ) : fin a + fin b = fin (a + b) := rfl
@[simp] theorem sub_fin_fin (a b : ℚ) : fin a - fin b = fin (a - b) := by
  show add (fin a) (neg (fin b)) = fin (a - b)
  simp [add, neg, sub_eq_add_neg]
@[simp] theorem mul_fin_fin (a b : ℚ) : fin a * fin b = fin (a * b) := rfl
@[simp] theorem nan_add (a : JsNum) : nan + a = nan := by
  show add nan a = nan
  cases a <;> rfl
@[simp] theorem add_nan (a : JsNum) : a + nan = nan := by
  show add a nan = nan
  cases a <;> rfl
@[simp] theorem inf_sub_fin (b : ℚ) : inf - fin b = inf := rfl
@[simp] theorem jmin_fin_fin (a b : ℚ) : jmin (fin a) (fin b) = fin (min a b) := rfl
@[simp] theorem jmin_fin_inf (a : ℚ) : jmin (fin a) inf = fin a := rfl
@[simp] theorem ltb_fin_fin (a b : ℚ) : ltb (fin a) (fin b) = decide (a < b) := rfl
@[simp] theorem leb_fin_fin (a b : ℚ) : leb (fin a) (fin b) = decide (a ≤ b) := by
  by_cases h : a ≤ b
  · simp [leb, ltb, h, not_lt.mpr h]
  · simp [leb, ltb, h, lt_of_not_le h]

end JsNum

/-! ### Settings and parseFloat

The tariff configuration is a string-keyed map in the source; each value
is a string from the database, or absent.  `parseFloat` is embedded for
decimal numerals (optional sign, digits, optional fraction) and the
`Infinity` literals; exponent notation is not modelled, which is exact for
every string the development evaluates. -/

/-- Accumulate leading decimal digits: returns the value read, the number
of digits consumed, and the rest of the characters. -/
def readDigits : ℕ → ℕ → List Char → ℕ × ℕ × List Char
  | acc, cnt, [] => (acc, cnt, [])
  | acc, cnt, c :: cs =>
    if c.isDigit then readDigits (acc * 10 + (c.toNat - 48)) (cnt + 1) cs
    else (acc, cnt, c :: cs)

/-- Core of `parseFloat` on a character list: optional sign, then either
an `Infinity` literal or a decimal numeral prefix; `NaN` when no numeral
can be read. -/
def parseFloatChars (cs : List Char) : JsNum :=
  let sgnRest : ℚ × List Char :=
    match cs with
    | '-' :: r => (-1, r)
    | '+' :: r => (1, r)
    | _ => (1, cs)
  match sgnRest.2 with
  | 'I' :: 'n' :: 'f' :: 'i' :: 'n' :: 'i' :: 't' :: 'y' :: _ =>
      if sgnRest.1 = 1 then JsNum.inf else JsNum.ninf
  | rest =>
    let ip := readDigits 0 0 rest
    match ip.2.2 with
    | '.' :: cs3 =>
      let fp := readDigits 0 0 cs3
      if ip.2.1 = 0 ∧ fp.2.1 = 0 then JsNum.nan
      else JsNum.fin (sgnRest.1 * ((ip.1 : ℚ) + (fp.1 : ℚ) / 10 ^ fp.2.1))
    | _ => if ip.2.1 = 0 then JsNum.nan else JsNum.fin (sgnRest.1 * (ip.1 : ℚ))

/-- `parseFloat` of a possibly-absent string; `parseFloat(undefined)` is
`NaN`. -/
def pf : Option String → JsNum
  | none => JsNum.nan
  | some s => parseFloatChars s.data

/-- JavaScript falsiness of a possibly-absent string value: `undefined`
and the empty string are falsy. -/
def falsy : Option String → Bool
  | none => true
  | some s => s.isEmpty

/-- The expression `a || b` over possibly-absent string settings. -/
def jsOr (a b : Option String) : Option String := if falsy a then b else a

/-- The expression `parseFloat(a || d)` where the fallback `d` is a
numeric literal. -/
def pfOr (a : Option String) (d : ℚ) : JsNum :=
  if falsy a then JsNum.fin d else pf a

/-- The tariff settings object: each key holds a string from the
database, or is absent. -/
structure Settings where
  water_basic_monthly_cost : Option String
  water_block_1_limit : Option String
  water_block_1_rate : Option String
  water_block_2_limit : Option String
  water_block_2_rate : Option String
  water_block_3_limit : Option String
  water_block_3_rate : Option String
  water_block_4_limit : Option String
  water_block_4_rate : Option String
  water_block_5_rate : Option String
  sewage_block_1_limit : Option String
  sewage_block_1_rate : Option String
  sewage_block_2_limit : Option String
  sewage_block_2_rate : Option String
  sewage_block_3_limit : Option String
  sewage_block_3_rate : Option String
  sewage_block_4_rate : Option String
deriving DecidableEq

/-- The default settings inserted by the single-user server at database
initialisation. -/
def defaultSettings : Settings where
  water_basic_monthly_cost := some "91.79"
  water_block_1_limit := some "6"
  water_block_1_rate := some "29.67"
  water_block_2_limit := some "15"
  water_block_2_rate := some "57.32"
  water_block_3_limit := some "25"
  water_block_3_rate := some "68.50"
  water_block_4_limit := some "35"
  water_block_4_rate := some "95.12"
  water_block_5_rate := some "133.43"
  sewage_block_1_limit := some "6"
  sewage_block_1_rate := some "22.25"
  sewage_block_2_limit := some "15"
  sewage_block_2_rate := some "42.99"
  sewage_block_3_limit := some "25"
  sewage_block_3_rate := some "51.38"
  sewage_block_4_rate := some "71.34"

/-! ### The tiered-cost walk (`calculateCostBreakdown`) -/

/-- One tariff block as built inside `calculateCostBreakdown`: a
cumulative limit and a per-kL rate, both JavaScript numbers. -/
structure Block where
  limit : JsNum
  rate : JsNum
deriving DecidableEq

/-- The block-walking loop shared by the water and sewage calculations:
for each block take `min(remainingUsage, block.limit - prevLimit)`, add
`blockUsage * block.rate` to the cost and decrement the remaining usage
when that is positive, advance `prevLimit`, and break once the remaining
usage is `<= 0`. -/
def tierWalk : List Block → JsNum → JsNum → JsNum → JsNum
  | [], _, _, cost => cost
  | b :: rest, remaining, prev, cost =>
    let blockUsage := JsNum.jmin remaining (b.limit - prev)
    let cost1 := if JsNum.ltb (.fin 0) blockUsage then cost + blockUsage * b.rate else cost
    let remaining1 := if JsNum.ltb (.fin 0) blockUsage then remaining - blockUsage else remaining
    if JsNum.leb remaining1 (.fin 0) then cost1 else tierWalk rest remaining1 b.limit cost1

/-- Water blocks of the single-user server: blocks 1-3 parse their
settings with no fallback, block 4's limit falls back to 35, the final
block is unbounded and falls back to block 4's rate. -/
def waterBlocksSU (s : Settings) : List Block :=
  [ ⟨pf s.water_block_1_limit, pf s.water_block_1_rate⟩,
    ⟨pf s.water_block_2_limit, pf s.water_block_2_rate⟩,
    ⟨pf s.water_block_3_limit, pf s.water_block_3_rate⟩,
    ⟨pfOr s.water_block_4_limit 35, pf s.water_block_4_rate⟩,
    ⟨JsNum.inf, pf (jsOr s.water_block_5_rate s.water_block_4_rate)⟩ ]

/-- Sewage blocks of the single-user server. -/
def sewageBlocksSU (s : Settings) : List Block :=
  [ ⟨pf s.sewage_block_1_limit, pf s.sewage_block_1_rate⟩,
    ⟨pf s.sewage_block_2_limit, pf s.sewage_block_2_rate⟩,
    ⟨pf s.sewage_block_3_limit, pf s.sewage_block_3_rate⟩,
    ⟨JsNum.inf, pf s.sewage_block_4_rate⟩ ]

/-- Water blocks of the multi-user server: every limit and rate has a
fallback — limits to 6/15/25/35, rates to 0, the unbounded block's rate
to block 4's rate and then 0. -/
def waterBlocksMU (s : Settings) : List Block :=
  [ ⟨pfOr s.water_block_1_limit 6, pfOr s.water_block_1_rate 0⟩,
    ⟨pfOr s.water_block_2_limit 15, pfOr s.water_block_2_rate 0⟩,
    ⟨pfOr s.water_block_3_limit 25, pfOr s.water_block_3_rate 0⟩,
    ⟨pfOr s.water_block_4_limit 35, pfOr s.water_block_4_rate 0⟩,
    ⟨JsNum.inf, pfOr (jsOr s.water_block_5_rate s.water_block_4_rate) 0⟩ ]

/-- Sewage blocks of the multi-user server. -/
def sewageBlocksMU (s : Settings) : List Block :=
  [ ⟨pfOr s.sewage_block_1_limit 6, pfOr s.sewage_block_1_rate 0⟩,
    ⟨pfOr s.sewage_block_2_limit 15, pfOr s.sewage_block_2_rate 0⟩,
    ⟨pfOr s.sewage_block_3_limit 25, pfOr s.sewage_block_3_rate 0⟩,
    ⟨JsNum.inf, pfOr s.sewage_block_4_rate 0⟩ ]

/-- The result object of `calculateCostBreakdown`. -/
structure Breakdown where
  waterBasic : JsNum
  waterUsage : JsNum
  sewage : JsNum
  total : JsNum
deriving DecidableEq

/-- `calculateCostBreakdown` of the single-user server (`src/server.js`):
basic charge with fallback 0, then the water and sewage block walks, each
starting from the full usage. -/
def calculateCostBreakdown (usage : JsNum) (s : Settings) : Breakdown :=
  let waterBasic := pfOr s.water_basic_monthly_cost 0
  let waterUsageCost := tierWalk (waterBlocksSU s) usage (.fin 0) (.fin 0)
  let sewageCost := tierWalk (sewageBlocksSU s) usage (.fin 0) (.fin 0)
  { waterBasic := waterBasic
    waterUsage := waterUsageCost
    sewage := sewageCost
    total := waterBasic + waterUsageCost + sewageCost }

/-- `calculateCostBreakdown` of the multi-user server
(`src/unnamed/part_004`), which differs only in the block fallbacks. -/
def calculateCostBreakdownMU (usage : JsNum) (s : Settings) : Breakdown :=
  let waterBasic := pfOr s.water_basic_monthly_cost 0
  let waterUsageCost := tierWalk (waterBlocksMU s) usage (.fin 0) (.fin 0)
  let sewageCost := tierWalk (sewageBlocksMU s) usage (.fin 0) (.fin 0)
  { waterBasic := waterBasic
    waterUsage := waterUsageCost
    sewage := sewageCost
    total := waterBasic + waterUsageCost + sewageCost }

/-! ### Rational-level description of the walk

`specWalk` is the tiered walk as §4.2 of the design describes it, over
parsed blocks with an optional (= unbounded) cumulative limit; the bridge
lemma `tierWalk_toBlock` proves the JavaScript walk computes exactly this
on finite inputs. -/

/-- A parsed tariff block: cumulative limit (`none` = unbounded) and
rate, as exact rationals. -/
structure QBlock where
  limit : Option ℚ
  rate : ℚ
deriving DecidableEq

/-- Interpret a parsed block as the JavaScript block object. -/
def toBlock (b : QBlock) : Block :=
  { limit := match b.limit with
      | some l => .fin l
      | none => .inf
    rate := .fin b.rate }

/-- The walk of §4.2: consume `min(remaining, limit - previousLimit)` at
each block's rate, stop once remaining usage is exhausted. -/
def specWalk : List QBlock → ℚ → ℚ → ℚ → ℚ
  | [], _, _, cost => cost
  | b :: rest, remaining, prev, cost =>
    let blockUsage : ℚ :=
      match b.limit with
      | some l => min remaining (l - prev)
      | none => remaining
    let cost1 := if 0 < blockUsage then cost + blockUsage * b.rate else cost
    let remaining1 := if 0 < blockUsage then remaining - blockUsage else remaining
    if remaining1 ≤ 0 then cost1
    else
      match b.limit with
      | some l => specWalk rest remaining1 l cost1
      | none => cost1

@[simp] theorem JsNum.mul_nan (a : JsNum) : a * nan = nan := by
  show JsNum.mul a nan = nan
  cases a <;> rfl

@[simp] theorem JsNum.nan_mul (a : JsNum) : nan * a = nan := by
  show JsNum.mul nan a = nan
  cases a <;> rfl

/-- On finite state and mapped blocks the JavaScript walk equals the
rational walk. -/
theorem tierWalk_toBlock (bs : List QBlock) : ∀ r p c : ℚ,
    tierWalk (bs.map toBlock) (.fin r) (.fin p) (.fin c) = .fin (specWalk bs r p c) := by
  induction bs with
  | nil => intro r p c; rfl
  | cons b rest ih =>
    intro r p c
    rcases b with ⟨lim, rate⟩
    cases lim with
    | some l =>
      simp only [List.map, tierWalk, specWalk, toBlock, JsNum.jmin_fin_fin,
        JsNum.sub_fin_fin, JsNum.ltb_fin_fin, JsNum.mul_fin_fin, JsNum.add_fin_fin,
        JsNum.leb_fin_fin]
      by_cases h1 : 0 < min r (l - p)
      · by_cases h2 : r - min r (l - p) ≤ 0
        · simp [h1, h2]
        · simp [h1, h2, ih]
      · by_cases h2 : r ≤ 0
        · simp [h1, h2]
        · simp [h1, h2, ih]
    | none =>
      simp only [List.map, tierWalk, specWalk, toBlock, JsNum.jmin_fin_inf,
        JsNum.ltb_fin_fin, JsNum.mul_fin_fin, JsNum.add_fin_fin,
        JsNum.sub_fin_fin, JsNum.leb_fin_fin]
      by_cases h1 : 0 < r
      · simp [h1, sub_self]
      · simp [h1, not_lt.mp h1]

/-- A NaN cost accumulator can never recover: the walk returns NaN. -/
theorem tierWalk_nan (bs : List Block) : ∀ r p, tierWalk bs r p JsNum.nan = JsNum.nan := by
  induction bs with
  | nil => intro r p; rfl
  | cons b rest ih =>
    intro r p
    simp only [tierWalk]
    have hc : (if JsNum.ltb (.fin 0) (JsNum.jmin r (b.limit - p)) then
        JsNum.nan + JsNum.jmin r (b.limit - p) * b.rate else JsNum.nan) = JsNum.nan := by
      by_cases h : JsNum.ltb (.fin 0) (JsNum.jmin r (b.limit - p)) = true
      · rw [if_pos h, JsNum.nan_add]
      · rw [if_neg h]
    rw [hc]
    by_cases h2 : JsNum.leb (if JsNum.ltb (.fin 0) (JsNum.jmin r (b.limit - p)) then
        r - JsNum.jmin r (b.limit - p) else r) (.fin 0) = true
    · rw [if_pos h2]
    · rw [if_neg h2]; exact ih _ _

/-- With non-negative rates the walk never decreases the accumulated
cost. -/
theorem specWalk_ge (bs : List QBlock) (hr : ∀ b ∈ bs, 0 ≤ b.rate) :
    ∀ r p c : ℚ, c ≤ specWalk bs r p c := by
  induction bs with
  | nil => intro r p c; exact le_of_eq rfl
  | cons b rest ih =>
    intro r p c
    have hb : 0 ≤ b.rate := hr b (by simp)
    have hrest : ∀ x ∈ rest, 0 ≤ x.rate := fun x hx => hr x (by simp [hx])
    rcases b with ⟨lim, rate⟩
    simp only [specWalk]
    have hcost : ∀ bu : ℚ, c ≤ if 0 < bu then c + bu * rate else c := by
      intro bu
      by_cases h : 0 < bu
      · rw [if_pos h]; nlinarith
      · rw [if_neg h]
    cases lim with
    | some l =>
      by_cases k : (if 0 < min r (l - p) then r - min r (l - p) else r) ≤ 0
      · rw [if_pos k]; exact hcost _
      · rw [if_neg k]; exact le_trans (hcost _) (ih hrest _ _ _)
    | none =>
      by_cases k : (if 0 < r then r - r else r) ≤ 0
      · rw [if_pos k]; exact hcost _
      · rw [if_neg k]; exact hcost _

/-- Monotonicity of the cost step in the consumed amount and the
accumulated cost, for a non-negative rate. -/
theorem stepCost_mono {rate bu1 bu2 c1 c2 : ℚ} (hb : 0 ≤ rate)
    (hbu : bu1 ≤ bu2) (hc : c1 ≤ c2) :
    (if 0 < bu1 then c1 + bu1 * rate else c1) ≤ (if 0 < bu2 then c2 + bu2 * rate else c2) := by
  by_cases h1 : 0 < bu1 <;> by_cases h2 : 0 < bu2
  · rw [if_pos h1, if_pos h2]
    exact add_le_add hc (mul_le_mul_of_nonneg_right hbu hb)
  · exact absurd (lt_of_lt_of_le h1 hbu) h2
  · rw [if_neg h1, if_pos h2]; nlinarith
  · rw [if_neg h1, if_neg h2]; exact hc

/-- Monotonicity of the remaining usage after one block, in the incoming
remaining usage. -/
theorem stepRem_mono (cc : ℚ) {r1 r2 : ℚ} (hr : r1 ≤ r2) :
    (if 0 < min r1 cc then r1 - min r1 cc else r1) ≤
      (if 0 < min r2 cc then r2 - min r2 cc else r2) := by
  have h5 : min r1 cc ≤ min r2 cc := min_le_min hr (le_refl cc)
  by_cases k1 : 0 < min r1 cc <;> by_cases k2 : 0 < min r2 cc
  · rw [if_pos k1, if_pos k2]
    rcases le_total r1 cc with h | h <;> rcases le_total r2 cc with h' | h'
    · rw [min_eq_left h, min_eq_left h']; linarith
    · rw [min_eq_left h, min_eq_right h']; linarith
    · rw [min_eq_right h, min_eq_left h']; linarith
    · rw [min_eq_right h, min_eq_right h']; linarith
  · exact absurd (lt_of_lt_of_le k1 h5) k2
  · rw [if_neg k1, if_pos k2]
    have hcc : 0 < cc := lt_of_lt_of_le k2 (min_le_right _ _)
    have hr1 : r1 ≤ 0 := by
      by_contra hpos
      push_neg at hpos
      exact k1 (lt_min hpos hcc)
    have hm := min_le_left r2 cc
    linarith
  · rw [if_neg k1, if_neg k2]; exact hr

/-- With non-negative rates the rational walk is monotone in the
remaining usage and the accumulated cost. -/
theorem specWalk_mono (bs : List QBlock) (hr : ∀ b ∈ bs, 0 ≤ b.rate) :
    ∀ r1 r2 p c1 c2 : ℚ, r1 ≤ r2 → c1 ≤ c2 →
      specWalk bs r1 p c1 ≤ specWalk bs r2 p c2 := by
  induction bs with
  | nil => intro r1 r2 p c1 c2 _ hc; simpa [specWalk] using hc
  | cons b rest ih =>
    intro r1 r2 p c1 c2 h12 hc
    have hb : 0 ≤ b.rate := hr b (by simp)
    have hrest : ∀ x ∈ rest, 0 ≤ x.rate := fun x hx => hr x (by simp [hx])
    rcases b with ⟨lim, rate⟩
    simp only [specWalk]
    cases lim with
    | some l =>
      have hbu : min r1 (l - p) ≤ min r2 (l - p) := min_le_min h12 (le_refl _)
      have hcost := stepCost_mono hb hbu hc
      have hrem := stepRem_mono (l - p) h12
      by_cases k1 : (if 0 < min r1 (l - p) then r1 - min r1 (l - p) else r1) ≤ 0 <;>
        by_cases k2 : (if 0 < min r2 (l - p) then r2 - min r2 (l - p) else r2) ≤ 0
      · rw [if_pos k1, if_pos k2]; exact hcost
      · rw [if_pos k1, if_neg k2]; exact le_trans hcost (specWalk_ge rest hrest _ _ _)
      · exact absurd (le_trans hrem k2) k1
      · rw [if_neg k1, if_neg k2]; exact ih hrest _ _ _ _ _ hrem hcost
    | none =>
      have hcost := stepCost_mono hb h12 hc
      rw [ite_self, ite_self]
      exact hcost

/-! ### Output formatting (`Number.toFixed`) -/

/-- Pad a digit string with leading zeros to width `f`. -/
def padZeros (f : Nat) (s : String) : String :=
  String.mk (List.replicate (f - s.length) '0') ++ s

/-- Embedding of `Number.toFixed(f)` on a finite value: round to the
nearest multiple of `10 ^ (-f)`, ties toward the larger value, and render
with exactly `f` decimals. -/
def toFixedQ (f : Nat) (q : ℚ) : String :=
  let n : Int := Int.floor (q * 10 ^ f + 1 / 2)
  let a := n.natAbs
  let ip := a / 10 ^ f
  let fr := a % 10 ^ f
  let sign := if n < 0 then "-" else ""
  if f = 0 then sign ++ Nat.repr ip
  else sign ++ Nat.repr ip ++ "." ++ padZeros f (Nat.repr fr)

/-- `Number.toFixed(f)` on any JavaScript number. -/
def JsNum.toFixed (f : Nat) : JsNum → String
  | nan => "NaN"
  | inf => "Infinity"
  | ninf => "-Infinity"
  | fin q => toFixedQ f q

/-! ### `calculateStatistics` -/

/-- One row of the `readings` table as the statistics code consumes it. -/
structure Reading where
  reading_value : ℚ
  reading_date : String
  reading_time : String
deriving DecidableEq

/-- One entry of the `dailyUsage` array. -/
structure DayUsage where
  date : String
  usage : ℚ
deriving DecidableEq

/-- A JSON-output value that is either a number or a string, recording
which of the two the source produced. -/
inductive JsVal where
  | num (q : ℚ)
  | str (s : String)
deriving DecidableEq

/-- The serialized cost-breakdown object (each component a number or a
string). -/
structure CBOut where
  waterBasic : JsVal
  waterUsage : JsVal
  sewage : JsVal
  total : JsVal
deriving DecidableEq

/-- The `costBreakdown` object with current and projected parts. -/
structure CostBreakdownOut where
  current : CBOut
  projected : CBOut
deriving DecidableEq

/-- The result object of `calculateStatistics`.  The billing period is
kept as the epoch-day numbers handed in; `daysInPeriod` and
`daysWithReadings` are `Option` because the fewer-than-two-readings
branch omits those keys. -/
structure StatsOut where
  totalUsage : JsVal
  dailyUsage : List DayUsage
  avgDailyUsage : JsVal
  currentCost : JsVal
  projectedCost : JsVal
  costBreakdown : CostBreakdownOut
  billingPeriodStart : Int
  billingPeriodEnd : Int
  daysInPeriod : Option Int
  daysWithReadings : Option Nat
deriving DecidableEq

/-- The daily-usage loop: one entry per consecutive pair of readings,
usage `max(0, value[i] - value[i-1])` attributed to reading `i`'s date. -/
def dailyUsageOf : List Reading → List DayUsage
  | [] => []
  | [_] => []
  | a :: b :: rest =>
    ⟨b.reading_date, max 0 (b.reading_value - a.reading_value)⟩ :: dailyUsageOf (b :: rest)

/-- `totalUsage`: the reduce-sum over the daily usage entries. -/
def totalUsageOf (rs : List Reading) : ℚ :=
  (dailyUsageOf rs).foldl (fun acc d => acc + d.usage) 0

/-- `avgDailyUsage`, guarded against an empty day list as in the
source. -/
def avgDailyUsageOf (rs : List Reading) : ℚ :=
  if 0 < (dailyUsageOf rs).length then totalUsageOf rs / ((dailyUsageOf rs).length : ℚ) else 0

/-- `totalDaysInPeriod`: the source takes `Math.ceil` of the millisecond
difference divided by a day's milliseconds, plus one.  Dates are modelled
as epoch-day numbers (their local midnights differ by whole days). -/
def daysInPeriodOf (startDate endDate : Int) : Int :=
  Int.ceil ((((endDate - startDate) : ℚ) * 86400000) / (1000 * 60 * 60 * 24)) + 1

/-- `calculateStatistics` as in both servers (the function is identical
in `src/server.js` and `src/unnamed/part_004`): a zeroed object for fewer
than two readings, otherwise daily deltas, averages, current and
projected tiered costs, serialized with `toFixed`. -/
def calculateStatistics (readings : List Reading) (s : Settings)
    (startDate endDate : Int) : StatsOut :=
  if readings.length < 2 then
    { totalUsage := .num 0
      dailyUsage := []
      avgDailyUsage := .num 0
      currentCost := .num 0
      projectedCost := .num 0
      costBreakdown :=
        { current := { waterBasic := .num 0, waterUsage := .num 0, sewage := .num 0, total := .num 0 }
          projected := { waterBasic := .num 0, waterUsage := .num 0, sewage := .num 0, total := .num 0 } }
      billingPeriodStart := startDate
      billingPeriodEnd := endDate
      daysInPeriod := none
      daysWithReadings := none }
  else
    let totalUsage := totalUsageOf readings
    let avgDailyUsage := avgDailyUsageOf readings
    let currentCB := calculateCostBreakdown (.fin totalUsage) s
    let totalDaysInPeriod := daysInPeriodOf startDate endDate
    let projectedUsage := avgDailyUsage * (totalDaysInPeriod : ℚ)
    let projectedCB := calculateCostBreakdown (.fin projectedUsage) s
    { totalUsage := .str (toFixedQ 4 totalUsage)
      dailyUsage := dailyUsageOf readings
      avgDailyUsage := .str (toFixedQ 4 avgDailyUsage)
      currentCost := .str (currentCB.total.toFixed 2)
      projectedCost := .str (projectedCB.total.toFixed 2)
      costBreakdown :=
        { current :=
            { waterBasic := .str (currentCB.waterBasic.toFixed 2)
              waterUsage := .str (currentCB.waterUsage.toFixed 2)
              sewage := .str (currentCB.sewage.toFixed 2)
              total := .str (currentCB.total.toFixed 2) }
          projected :=
            { waterBasic := .str (projectedCB.waterBasic.toFixed 2)
              waterUsage := .str (projectedCB.waterUsage.toFixed 2)
              sewage := .str (projectedCB.sewage.toFixed 2)
              total := .str (projectedCB.total.toFixed 2) } }
      billingPeriodStart := startDate
      billingPeriodEnd := endDate
      daysInPeriod := some totalDaysInPeriod
      daysWithReadings := some (dailyUsageOf readings).length }

/-! ### Billing period resolution -/

/-- Gregorian leap-year test. -/
def isLeapYear (y : Int) : Bool :=
  (y % 4 == 0 && !(y % 100 == 0)) || y % 400 == 0

/-- Days in the zero-based month `m` of year `y`. -/
def daysInMonth (y : Int) (m : Nat) : Nat :=
  match m with
  | 1 => if isLeapYear y then 29 else 28
  | 3 => 30
  | 5 => 30
  | 8 => 30
  | 10 => 30
  | _ => 31

/-- A calendar date with zero-based month, as the JavaScript `Date`
components `(getFullYear, getMonth, getDate)`. -/
structure Date where
  year : Int
  month : Nat
  day : Nat
deriving DecidableEq

/-- Advance to the following month. -/
def nextMonth (y : Int) (m : Nat) : Int × Nat :=
  if m = 11 then (y + 1, 0) else (y, m + 1)

/-- Roll a day count that exceeds the month's length forward into the
following months; the fuel is an upper bound on the iterations (each step
consumes at least 28 days). -/
def rollDate : Nat → Int → Nat → Nat → Date
  | 0, y, m, d => ⟨y, m, d⟩
  | fuel + 1, y, m, d =>
    if daysInMonth y m < d then
      rollDate fuel (nextMonth y m).1 (nextMonth y m).2 (d - daysInMonth y m)
    else ⟨y, m, d⟩

/-- The JavaScript `new Date(year, month, day)` constructor on a
positive day: out-of-range months and days normalize by calendar
arithmetic.  (The legacy two-digit-year offset of the host constructor is
outside the model.) -/
def mkDate (y m : Int) (d : Nat) : Date :=
  rollDate d (y + Int.ediv m 12) (Int.emod m 12).toNat d

/-- The billing-period resolution of the `/api/statistics` handler: if
today's day-of-month has reached the configured start day the cycle
started this month (rolling the end into next month when the end day
precedes the start day), otherwise it started in the previous month. -/
def resolveBillingPeriod (today : Date) (startDay endDay : Nat) : Date × Date :=
  if startDay ≤ today.day then
    (mkDate today.year today.month startDay,
      if endDay < startDay then mkDate today.year ((today.month : Int) + 1) endDay
      else mkDate today.year today.month endDay)
  else
    (mkDate today.year ((today.month : Int) - 1) startDay,
      mkDate today.year (today.month : Int) endDay)

/-! ### Spec-side descriptions -/

/-- The daily-usage sequence as C3 words it: zip consecutive pairs,
flooring negative deltas at zero and attributing the delta to the later
reading's date. -/
def specDaily (rs : List Reading) : List DayUsage :=
  List.zipWith (fun a b => ⟨b.reading_date, max 0 (b.reading_value - a.reading_value)⟩)
    rs rs.tail

/-- The default water tariff blocks named by the spec: cumulative limits
6, 15, 25, 35 and rates 29.67, 57.32, 68.50, 95.12, 133.43 with the last
block unbounded. -/
def defaultWaterQBlocks : List QBlock :=
  [ ⟨some 6, 2967 / 100⟩,
    ⟨some 15, 5732 / 100⟩,
    ⟨some 25, 685 / 10⟩,
    ⟨some 35, 9512 / 100⟩,
    ⟨none, 13343 / 100⟩ ]

/-- The default sewage tariff blocks: cumulative limits 6, 15, 25 and
rates 22.25, 42.99, 51.38, 71.34 with the last block unbounded. -/
def defaultSewageQBlocks : List QBlock :=
  [ ⟨some 6, 2225 / 100⟩,
    ⟨some 15, 4299 / 100⟩,
    ⟨some 25, 5138 / 100⟩,
    ⟨none, 7134 / 100⟩ ]

/-- The example reading sequence of the spec: values 100, 102.5, 101 on
three successive days. -/
def demoReadings : List Reading :=
  [ ⟨100, "2025-01-01", "08:00"⟩,
    ⟨205 / 2, "2025-01-02", "08:00"⟩,
    ⟨101, "2025-01-03", "08:00"⟩ ]

/-- A minimal two-reading sequence with a delta of one kiloliter. -/
def twoReadings : List Reading :=
  [ ⟨100, "2025-01-01", "08:00"⟩, ⟨101, "2025-01-02", "08:00"⟩ ]

/-- The pairwise loop produces exactly the zip-with-successor description
of the daily usage. -/
theorem dailyUsageOf_eq_specDaily : ∀ rs : List Reading, dailyUsageOf rs = specDaily rs
  | [] => rfl
  | [_] => rfl
  | a :: b :: rest => by
    show (⟨b.reading_date, max 0 (b.reading_value - a.reading_value)⟩ : DayUsage)
        :: dailyUsageOf (b :: rest)
      = ⟨b.reading_date, max 0 (b.reading_value - a.reading_value)⟩ :: specDaily (b :: rest)
    rw [dailyUsageOf_eq_specDaily (b :: rest)]

/-- C1: the water usage charge walks the blocks in order consuming
`min(remaining, limit - previousLimit)` at each block's rate (for every
non-negative usage it equals the rational walk over the default water
blocks), and usage exactly at a cumulative limit is billed entirely at
that block's rate: at 6 kL the charge is 6 × 29.67 = 178.02, and at
6.001 kL it is 178.02 + 0.001 × 57.32. -/
theorem C1_tiered_walk_and_boundary :
    (∀ u : ℚ, 0 ≤ u →
      (calculateCostBreakdown (.fin u) defaultSettings).waterUsage
        = .fin (specWalk defaultWaterQBlocks u 0 0))
    ∧ (calculateCostBreakdown (.fin 6) defaultSettings).waterUsage = .fin (17802 / 100)
    ∧ (calculateCostBreakdown (.fin (6001 / 1000)) defaultSettings).waterUsage
        = .fin (17802 / 100 + (1 / 1000) * (5732 / 100)) := by
  refine ⟨?_, by decide, by decide⟩
  intro u _
  have hw : waterBlocksSU defaultSettings = defaultWaterQBlocks.map toBlock := by decide
  show tierWalk (waterBlocksSU defaultSettings) (.fin u) (.fin 0) (.fin 0) = _
  rw [hw, tierWalk_toBlock]

/-- Witness for C1 at usage 3. -/
theorem C1_witness :
    (0 : ℚ) ≤ 3
    ∧ (calculateCostBreakdown (.fin 3) defaultSettings).waterUsage
        = .fin (specWalk defaultWaterQBlocks 3 0 0) :=
  ⟨by norm_num, C1_tiered_walk_and_boundary.1 3 (by norm_num)⟩

/-- C2: for start and end days in 1..31, when today's day has reached the
start day the period starts this month on the start day and ends next
month when the end day precedes the start day (else this month); when
today's day is before the start day the period starts in the previous
month; with the two concrete examples of the spec. -/
theorem C2_billing_period_resolution :
    (∀ (today : Date) (startDay endDay : Nat),
      1 ≤ startDay → startDay ≤ 31 → 1 ≤ endDay → endDay ≤ 31 →
      (startDay ≤ today.day →
        resolveBillingPeriod today startDay endDay =
          (mkDate today.year today.month startDay,
            if endDay < startDay then mkDate today.year ((today.month : Int) + 1) endDay
            else mkDate today.year today.month endDay))
      ∧ (today.day < startDay →
        resolveBillingPeriod today startDay endDay =
          (mkDate today.year ((today.month : Int) - 1) startDay,
            mkDate today.year (today.month : Int) endDay)))
    ∧ resolveBillingPeriod ⟨2025, 0, 5⟩ 20 19 = (⟨2024, 11, 20⟩, ⟨2025, 0, 19⟩)
    ∧ resolveBillingPeriod ⟨2025, 0, 15⟩ 1 31 = (⟨2025, 0, 1⟩, ⟨2025, 0, 31⟩) := by
  refine ⟨?_, by decide, by decide⟩
  intro today startDay endDay _ _ _ _
  constructor
  · intro h
    simp only [resolveBillingPeriod]
    rw [if_pos h]
  · intro h
    simp only [resolveBillingPeriod]
    rw [if_neg (not_le.mpr h)]

/-- Witness for C2 at the month-spanning example. -/
theorem C2_witness :
    resolveBillingPeriod ⟨2025, 0, 5⟩ 20 19 =
      (mkDate 2025 ((0 : Int) - 1) 20, mkDate 2025 (0 : Int) 19) :=
  (C2_billing_period_resolution.1 ⟨2025, 0, 5⟩ 20 19 (by norm_num) (by norm_num)
    (by norm_num) (by norm_num)).2 (by norm_num)

/-- C3: for at least two readings the daily usage records, per
consecutive pair, `max(0, value[i] - value[i-1])` attributed to reading
`i`'s date (negative deltas floored to zero, not an error); on the spec's
example 100, 102.5, 101 this yields entries 2.5 and 0, total usage 2.5
(rendered "2.5000") and average 1.25 (rendered "1.2500"). -/
theorem C3_daily_usage_deltas :
    (∀ rs : List Reading, dailyUsageOf rs = specDaily rs)
    ∧ (∀ (rs : List Reading) (S : Settings) (a b : Int), 2 ≤ rs.length →
        (calculateStatistics rs S a b).dailyUsage = specDaily rs)
    ∧ (calculateStatistics demoReadings defaultSettings 0 30).dailyUsage
        = [⟨"2025-01-02", 5 / 2⟩, ⟨"2025-01-03", 0⟩]
    ∧ totalUsageOf demoReadings = 5 / 2
    ∧ avgDailyUsageOf demoReadings = 5 / 4
    ∧ (calculateStatistics demoReadings defaultSettings 0 30).totalUsage = .str "2.5000"
    ∧ (calculateStatistics demoReadings defaultSettings 0 30).avgDailyUsage = .str "1.2500" := by
  refine ⟨dailyUsageOf_eq_specDaily, ?_, by decide, by decide, by decide, by decide, by decide⟩
  intro rs S a b h
  unfold calculateStatistics
  rw [if_neg (not_lt.mpr h)]
  exact dailyUsageOf_eq_specDaily rs

/-- Witness for C3's universally quantified part on the demo readings. -/
theorem C3_witness :
    2 ≤ demoReadings.length
    ∧ (calculateStatistics demoReadings defaultSettings 0 30).dailyUsage
        = specDaily demoReadings :=
  ⟨by decide, C3_daily_usage_deltas.2.1 demoReadings defaultSettings 0 30 (by decide)⟩

/-- C4: with fewer than two readings the statistics object is zeroed —
every usage and cost field is the number zero and the daily-usage list is
empty — independent of the tariff configuration and the period. -/
theorem C4_insufficient_readings_zero (rs : List Reading) (S : Settings) (a b : Int)
    (h : rs.length < 2) :
    (calculateStatistics rs S a b).totalUsage = .num 0
    ∧ (calculateStatistics rs S a b).dailyUsage = []
    ∧ (calculateStatistics rs S a b).avgDailyUsage = .num 0
    ∧ (calculateStatistics rs S a b).currentCost = .num 0
    ∧ (calculateStatistics rs S a b).projectedCost = .num 0
    ∧ (calculateStatistics rs S a b).costBreakdown
        = ⟨⟨.num 0, .num 0, .num 0, .num 0⟩, ⟨.num 0, .num 0, .num 0, .num 0⟩⟩ := by
  unfold calculateStatistics
  rw [if_pos h]
  exact ⟨rfl, rfl, rfl, rfl, rfl, rfl⟩

/-- Witness for C4 on the empty reading list. -/
theorem C4_witness :
    ([] : List Reading).length < 2
    ∧ (calculateStatistics [] defaultSettings 0 30).totalUsage = .num 0 :=
  ⟨by decide, (C4_insufficient_readings_zero [] defaultSettings 0 30 (by decide)).1⟩

/-- C5: with at least two readings, `daysInPeriod` is the inclusive day
count `floor((end - start) / 1 day) + 1` and the projected cost is the
tiered total of `avgDailyUsage × daysInPeriod`; with average 1.25 over a
31-day period the projected usage is 38.75. -/
theorem C5_projection :
    (∀ (rs : List Reading) (S : Settings) (a b : Int), 2 ≤ rs.length →
      (calculateStatistics rs S a b).daysInPeriod
        = some (Int.floor ((((b - a) : ℚ) * 86400000) / (1000 * 60 * 60 * 24)) + 1)
      ∧ (calculateStatistics rs S a b).projectedCost
        = .str ((calculateCostBreakdown
            (.fin (avgDailyUsageOf rs * ((daysInPeriodOf a b : ℤ) : ℚ))) S).total.toFixed 2))
    ∧ daysInPeriodOf 0 30 = 31
    ∧ avgDailyUsageOf demoReadings = 5 / 4
    ∧ (5 / 4 : ℚ) * 31 = 155 / 4
    ∧ (calculateStatistics demoReadings defaultSettings 0 30).projectedCost
        = .str ((calculateCostBreakdown (.fin (155 / 4)) defaultSettings).total.toFixed 2) := by
  refine ⟨?_, by decide, by decide, by norm_num, by decide⟩
  intro rs S a b h
  have hnot : ¬ rs.length < 2 := not_lt.mpr h
  have hx : (((b - a) : ℚ) * 86400000) / (1000 * 60 * 60 * 24) = ((b - a : ℤ) : ℚ) := by
    rw [show ((1000 * 60 * 60 * 24 : ℚ)) = 86400000 by norm_num, mul_div_assoc,
      div_self (by norm_num : (86400000 : ℚ) ≠ 0), mul_one, Int.cast_sub]
  constructor
  · unfold calculateStatistics
    rw [if_neg hnot]
    unfold daysInPeriodOf
    rw [hx, Int.ceil_intCast, Int.floor_intCast]
  · unfold calculateStatistics
    rw [if_neg hnot]

/-- Witness for C5 on the demo readings over a 31-day period. -/
theorem C5_witness :
    2 ≤ demoReadings.length
    ∧ (calculateStatistics demoReadings defaultSettings 0 30).daysInPeriod
        = some (Int.floor ((((30 - 0 : Int) : ℚ) * 86400000) / (1000 * 60 * 60 * 24)) + 1) :=
  ⟨by decide, (C5_projection.1 demoReadings defaultSettings 0 30 (by decide)).1⟩

/-- The default tariff with the block-1 water rate replaced by a
negative numeral string. -/
def negRateSettings : Settings :=
  { defaultSettings with water_block_1_rate := some "-29.67" }

/-- C6 counterexample: with a tariff whose block-1 water rate is the
(numeric, negative) string "-29.67", usage 0 ≤ 6 but the total at 0
(91.79) is not ≤ the total at 6 (47.27), refuting monotonicity for every
tariff. -/
theorem C6_counterexample_negative_rate :
    ((0 : ℚ) ≤ 6)
    ∧ JsNum.leb (calculateCostBreakdown (.fin 0) negRateSettings).total
        ((calculateCostBreakdown (.fin 6) negRateSettings).total) = false :=
  ⟨by norm_num, by decide⟩

/-- C6 amended: for every tariff whose basic charge parses to a finite
number, whose water and sewage blocks parse to finite limits and rates,
and whose rates are all non-negative, the tiered total is monotone
non-decreasing in usage. -/
theorem C6_monotone_nonneg_rates (S : Settings) (wq sq : List QBlock) (basic : ℚ)
    (hw : waterBlocksSU S = wq.map toBlock)
    (hs : sewageBlocksSU S = sq.map toBlock)
    (hb : pfOr S.water_basic_monthly_cost 0 = .fin basic)
    (hwr : ∀ blk ∈ wq, 0 ≤ blk.rate)
    (hsr : ∀ blk ∈ sq, 0 ≤ blk.rate)
    (u1 u2 : ℚ) (h : u1 ≤ u2) :
    JsNum.leb (calculateCostBreakdown (.fin u1) S).total
      ((calculateCostBreakdown (.fin u2) S).total) = true := by
  show JsNum.leb
      (pfOr S.water_basic_monthly_cost 0
        + tierWalk (waterBlocksSU S) (.fin u1) (.fin 0) (.fin 0)
        + tierWalk (sewageBlocksSU S) (.fin u1) (.fin 0) (.fin 0))
      (pfOr S.water_basic_monthly_cost 0
        + tierWalk (waterBlocksSU S) (.fin u2) (.fin 0) (.fin 0)
        + tierWalk (sewageBlocksSU S) (.fin u2) (.fin 0) (.fin 0)) = true
  rw [hb, hw, hs, tierWalk_toBlock, tierWalk_toBlock, tierWalk_toBlock, tierWalk_toBlock,
    JsNum.add_fin_fin, JsNum.add_fin_fin, JsNum.add_fin_fin, JsNum.add_fin_fin,
    JsNum.leb_fin_fin, decide_eq_true_eq]
  have hwm := specWalk_mono wq hwr u1 u2 0 0 0 h (le_refl 0)
  have hsm := specWalk_mono sq hsr u1 u2 0 0 0 h (le_refl 0)
  linarith

/-- Witness for the amended C6 on the default tariff at usages 1 and 2. -/
theorem C6_witness :
    JsNum.leb (calculateCostBreakdown (.fin 1) defaultSettings).total
      ((calculateCostBreakdown (.fin 2) defaultSettings).total) = true :=
  C6_monotone_nonneg_rates defaultSettings defaultWaterQBlocks defaultSewageQBlocks
    (9179 / 100) (by decide) (by decide) (by decide) (by decide) (by decide)
    1 2 (by norm_num)

/-- C7: the tiered total is by construction the sum of the basic, water
usage and sewage components, for every usage and tariff. -/
theorem C7_total_decomposition (u : ℚ) (hu : 0 ≤ u) (S : Settings) :
    (calculateCostBreakdown (.fin u) S).total
      = (calculateCostBreakdown (.fin u) S).waterBasic
        + (calculateCostBreakdown (.fin u) S).waterUsage
        + (calculateCostBreakdown (.fin u) S).sewage := rfl

/-- Witness for C7 at usage 2 under the default tariff. -/
theorem C7_witness :
    (0 : ℚ) ≤ 2
    ∧ (calculateCostBreakdown (.fin 2) defaultSettings).total
      = (calculateCostBreakdown (.fin 2) defaultSettings).waterBasic
        + (calculateCostBreakdown (.fin 2) defaultSettings).waterUsage
        + (calculateCostBreakdown (.fin 2) defaultSettings).sewage :=
  ⟨by norm_num, C7_total_decomposition 2 (by norm_num) defaultSettings⟩

/-- The default tariff with the block-1 water rate present but set to
the non-numeric string "abc". -/
def malformedRateSettings : Settings :=
  { defaultSettings with water_block_1_rate := some "abc" }

/-- C8, code behaviour at the failing input: with a present but
non-numeric block-1 water rate the breakdown total is NaN and the
statistics request succeeds, serializing the current cost as the string
"NaN" — no configuration error is surfaced. -/
theorem C8_malformed_rate_nan :
    (calculateCostBreakdown (.fin 1) malformedRateSettings).total = JsNum.nan
    ∧ (calculateStatistics twoReadings malformedRateSettings 0 30).currentCost = .str "NaN" :=
  ⟨by decide, by decide⟩

/-- The default tariff with the block-1 water rate absent. -/
def missingB1RateSettings : Settings :=
  { defaultSettings with water_block_1_rate := none }

/-- The default tariff with every block-1/2/3 water limit and rate
absent. -/
def missingBlocks123Settings : Settings :=
  { defaultSettings with
      water_block_1_limit := none, water_block_1_rate := none
      water_block_2_limit := none, water_block_2_rate := none
      water_block_3_limit := none, water_block_3_rate := none }

/-- C9 counterexample: in the single-user server an absent block-1 water
rate is parsed with no fallback, so the water usage charge at 6 kL is
NaN — a non-numeric result instead of the documented default
6 × 29.67 = 178.02. -/
theorem C9_counterexample_missing_rate :
    (calculateCostBreakdown (.fin 6) missingB1RateSettings).waterUsage = JsNum.nan
    ∧ JsNum.nan ≠ JsNum.fin (17802 / 100) :=
  ⟨by decide, by decide⟩

/-- C9 amended: the single-user server performs no fallback for absent
block-1/2/3 settings (any positive usage against an absent block-1 rate
yields a NaN water charge), while the multi-user server falls back to the
documented default limits 6/15/25 but to rate 0 — not the documented
default rates — so 6 kL with an absent block-1 rate is charged 0. -/
theorem C9_fallback_behavior :
    (∀ u : ℚ, 0 < u →
      (calculateCostBreakdown (.fin u) missingB1RateSettings).waterUsage = JsNum.nan)
    ∧ waterBlocksMU missingBlocks123Settings =
        [ ⟨.fin 6, .fin 0⟩, ⟨.fin 15, .fin 0⟩, ⟨.fin 25, .fin 0⟩,
          ⟨.fin 35, .fin (9512 / 100)⟩, ⟨.inf, .fin (13343 / 100)⟩ ]
    ∧ (calculateCostBreakdownMU (.fin 6) missingB1RateSettings).waterUsage = .fin 0 := by
  refine ⟨?_, by decide, by decide⟩
  intro u hu
  have hblocks : waterBlocksSU missingB1RateSettings =
      [ ⟨.fin 6, .nan⟩, ⟨.fin 15, .fin (5732 / 100)⟩, ⟨.fin 25, .fin (685 / 10)⟩,
        ⟨.fin 35, .fin (9512 / 100)⟩, ⟨.inf, .fin (13343 / 100)⟩ ] := by decide
  show tierWalk (waterBlocksSU missingB1RateSettings) (.fin u) (.fin 0) (.fin 0) = JsNum.nan
  rw [hblocks]
  rcases le_or_lt u 6 with hc | hc
  · simp [tierWalk, tierWalk_nan, min_eq_left hc, hu]
  · have hmin : min u (6 : ℚ) = 6 := min_eq_right hc.le
    have hpos : ¬ (u - 6 ≤ 0) := by linarith
    simp [tierWalk, tierWalk_nan, hmin, hu, hpos]

/-- Witness for the amended C9 at usage 1. -/
theorem C9_witness :
    (0 : ℚ) < 1
    ∧ (calculateCostBreakdown (.fin 1) missingB1RateSettings).waterUsage = JsNum.nan :=
  ⟨by norm_num, C9_fallback_behavior.1 1 (by norm_num)⟩

/-- C10: the result shape differs between the two branches — with fewer
than two readings every numeric field is the number 0 and the day-count
keys are absent, with two or more readings every numeric field is a
fixed-precision decimal string (4 decimals for usage, 2 for costs) and
both day-count keys are present. -/
theorem C10_result_shape (rs : List Reading) (S : Settings) (a b : Int) :
    (rs.length < 2 →
      (calculateStatistics rs S a b).totalUsage = .num 0
      ∧ (calculateStatistics rs S a b).avgDailyUsage = .num 0
      ∧ (calculateStatistics rs S a b).currentCost = .num 0
      ∧ (calculateStatistics rs S a b).projectedCost = .num 0
      ∧ (calculateStatistics rs S a b).costBreakdown
          = ⟨⟨.num 0, .num 0, .num 0, .num 0⟩, ⟨.num 0, .num 0, .num 0, .num 0⟩⟩
      ∧ (calculateStatistics rs S a b).daysInPeriod = none
      ∧ (calculateStatistics rs S a b).daysWithReadings = none)
    ∧ (2 ≤ rs.length →
      (calculateStatistics rs S a b).totalUsage = .str (toFixedQ 4 (totalUsageOf rs))
      ∧ (calculateStatistics rs S a b).avgDailyUsage = .str (toFixedQ 4 (avgDailyUsageOf rs))
      ∧ (calculateStatistics rs S a b).currentCost
          = .str ((calculateCostBreakdown (.fin (totalUsageOf rs)) S).total.toFixed 2)
      ∧ (calculateStatistics rs S a b).projectedCost
          = .str ((calculateCostBreakdown
              (.fin (avgDailyUsageOf rs * ((daysInPeriodOf a b : ℤ) : ℚ))) S).total.toFixed 2)
      ∧ (calculateStatistics rs S a b).costBreakdown.current
          = ⟨.str ((calculateCostBreakdown (.fin (totalUsageOf rs)) S).waterBasic.toFixed 2),
              .str ((calculateCostBreakdown (.fin (totalUsageOf rs)) S).waterUsage.toFixed 2),
              .str ((calculateCostBreakdown (.fin (totalUsageOf rs)) S).sewage.toFixed 2),
              .str ((calculateCostBreakdown (.fin (totalUsageOf rs)) S).total.toFixed 2)⟩
      ∧ (calculateStatistics rs S a b).costBreakdown.projected
          = ⟨.str ((calculateCostBreakdown
                (.fin (avgDailyUsageOf rs * ((daysInPeriodOf a b : ℤ) : ℚ))) S).waterBasic.toFixed 2),
              .str ((calculateCostBreakdown
                (.fin (avgDailyUsageOf rs * ((daysInPeriodOf a b : ℤ) : ℚ))) S).waterUsage.toFixed 2),
              .str ((calculateCostBreakdown
                (.fin (avgDailyUsageOf rs * ((daysInPeriodOf a b : ℤ) : ℚ))) S).sewage.toFixed 2),
              .str ((calculateCostBreakdown
                (.fin (avgDailyUsageOf rs * ((daysInPeriodOf a b : ℤ) : ℚ))) S).total.toFixed 2)⟩
      ∧ (calculateStatistics rs S a b).daysInPeriod = some (daysInPeriodOf a b)
      ∧ (calculateStatistics rs S a b).daysWithReadings = some (dailyUsageOf rs).length) := by
  constructor
  · intro h
    unfold calculateStatistics
    rw [if_pos h]
    exact ⟨rfl, rfl, rfl, rfl, rfl, rfl, rfl⟩
  · intro h
    unfold calculateStatistics
    rw [if_neg (not_lt.mpr h)]
    exact ⟨rfl, rfl, rfl, rfl, rfl, rfl, rfl, rfl⟩

/-- Witness for C10, discharging the first branch on an empty list and
the second on the demo readings. -/
theorem C10_witness :
    (([] : List Reading).length < 2
      ∧ (calculateStatistics [] defaultSettings 0 30).daysInPeriod = none)
    ∧ (2 ≤ demoReadings.length
      ∧ (calculateStatistics demoReadings defaultSettings 0 30).daysInPeriod
          = some (daysInPeriodOf 0 30)) :=
  ⟨⟨by decide, ((C10_result_shape [] defaultSettings 0 30).1 (by decide)).2.2.2.2.2.1⟩,
    ⟨by decide, ((C10_result_shape demoReadings defaultSettings 0 30).2 (by decide)).2.2.2.2.2.2.1⟩⟩

end MeterTracker
